import Mathlib

/-!
Verification development for the `little-expr` animation scripts
(`ast_generation.py` and `cfg_static_images.py`).

The scripts contain no algorithms: every token, AST node, basic block,
connector and merge decision is literal authored data inside scene methods.
We embed that literal data, together with the small amount of computation the
scripts do perform (the empty-statement placeholder branch of the block-box
builders, the anchor-side selection of the connector builders, and the index
bookkeeping of the block-merging step), as Lean definitions, and prove the
structural/content properties claimed about them.

Purely metric visual attributes that no claim depends on (screen coordinates
given to `move_to`, group scaling factors) are not modelled; categorical
visual attributes (font sizes, colors, bold weight, arrange/buffer distances,
anchor edges, label shift directions) are.
-/

/-! ## Tokens of the AST scene (`ASTGeneration.show_tokenization`) -/

/-- Category label "关键字" (keyword) used in `ast_generation.py`. -/
def keywordCategory : String := "关键字"

/-- Category label "标识符" (identifier) used in `ast_generation.py`. -/
def identifierCategory : String := "标识符"

/-- Category label "分隔符" (delimiter) used in `ast_generation.py`. -/
def delimiterCategory : String := "分隔符"

/-- Category label "运算符" (operator) used in `ast_generation.py`. -/
def operatorCategory : String := "运算符"

/-- Category label "字面量" (literal) used in `ast_generation.py`. -/
def literalCategory : String := "字面量"

/-- The literal `tokens` list of `ASTGeneration.show_tokenization`
(`ast_generation.py`, the `tokens = [...]` literal): pairs of lexeme and
category label, in display order. -/
def astTokens : List (String × String) :=
  [("int", keywordCategory),
   ("checkGrade", identifierCategory),
   ("(", delimiterCategory),
   (")", delimiterCategory),
   ("\x7b", delimiterCategory),
   ("int", keywordCategory),
   ("grade", identifierCategory),
   ("=", operatorCategory),
   ("0", literalCategory),
   (";", delimiterCategory),
   ("if", keywordCategory),
   ("(", delimiterCategory),
   ("score", identifierCategory),
   (">=", operatorCategory),
   ("90", literalCategory),
   (")", delimiterCategory),
   ("\x7b", delimiterCategory),
   ("grade", identifierCategory),
   ("=", operatorCategory),
   ("1", literalCategory),
   (";", delimiterCategory),
   ("\x7d", delimiterCategory),
   ("else", keywordCategory),
   ("\x7b", delimiterCategory),
   ("grade", identifierCategory),
   ("=", operatorCategory),
   ("2", literalCategory),
   (";", delimiterCategory),
   ("\x7d", delimiterCategory),
   ("return", keywordCategory),
   ("grade", identifierCategory),
   (";", delimiterCategory),
   ("\x7d", delimiterCategory)]

/-- The lexemes displayed by the tokenization stage, in display order. -/
def astDisplayedLexemes : List String := astTokens.map Prod.fst

/-- The literal `source_code` string of `ASTGeneration.construct`
(`ast_generation.py`), split into its ten lines as the scene itself does
(`code.strip().split('\n')`). -/
def astSourceLines : List String :=
  ["int checkGrade() \x7b",
   "    int grade = 0;",
   "    int score = 70;",
   "    if (score >= 90) \x7b",
   "        grade = 1;",
   "    \x7d else \x7b",
   "        grade = 2;",
   "    \x7d",
   "    return grade;",
   "\x7d"]

/-- A character that may continue an identifier/keyword lexeme. -/
def isWordChar (c : Char) : Bool := c.isAlpha || c.isDigit || c == '_'

/-- Modelled from the spec: the repository contains no lexer (the token list
is hand-authored), so the notion of "lexeme of the source program" needed to
compare the displayed tokens with the complete tokenization is supplied here:
a standard maximal-munch scanner for the C-like example program (identifier
and number runs, the two-character operator `>=`, every other non-space
character a single-character lexeme). Fuel-based recursion; each step consumes
at least one character, so fuel = length of the input never runs out. -/
def lexChars : Nat → List Char → List String
  | 0, _ => []
  | _, [] => []
  | fuel + 1, c :: cs =>
    if c == ' ' then
      lexChars fuel cs
    else if c.isAlpha then
      String.mk ((c :: cs).takeWhile isWordChar) ::
        lexChars fuel ((c :: cs).dropWhile isWordChar)
    else if c.isDigit then
      String.mk ((c :: cs).takeWhile Char.isDigit) ::
        lexChars fuel ((c :: cs).dropWhile Char.isDigit)
    else if c == '>' then
      match cs with
      | '=' :: rest => String.mk ['>', '='] :: lexChars fuel rest
      | _ => String.mk [c] :: lexChars fuel cs
    else
      String.mk [c] :: lexChars fuel cs

/-- All lexemes of one source line, in left-to-right order. -/
def lexLine (s : String) : List String := lexChars (s.data.length + 1) s.data

/-- The complete tokenization of a source program (given as lines) in reading
order: left-to-right within a line, top-to-bottom across lines. -/
def tokenizeProgram (lines : List String) : List String :=
  (lines.map lexLine).flatten

/-! ## The AST tree stage (`ASTGeneration.show_ast_building`) -/

/-- The labels of the ten AST nodes created by `show_ast_building`, indexed in
the order of the `all_nodes` list of the script. -/
def astNodeLabels : List String :=
  ["Program",
   "FunctionDeclaration\ncheckGrade",
   "BlockStatement",
   "VariableDeclaration\nint grade = 0",
   "VariableDeclaration\nint score = 70",
   "IfStatement",
   "BinaryExpression\n>=\nscore, 90",
   "AssignmentStatement\ngrade = 1",
   "AssignmentStatement\ngrade = 2",
   "ReturnStatement\nreturn grade"]

/-- The nine `connect_nodes` calls of `show_ast_building` as (parent index,
child index) pairs over `astNodeLabels`, in the order of the `all_arrows`
list (arrow1 … arrow9). -/
def astEdges : List (Nat × Nat) :=
  [(0, 1), (1, 2), (2, 3), (2, 4), (2, 5), (5, 6), (5, 7), (5, 8), (2, 9)]

/-- The node-reveal schedule of `show_ast_building`: one inner list per
`self.play` call, holding the indices of the nodes whose `Create` animations
are batched into that call, in program order. -/
def astRevealSchedule : List (List Nat) :=
  [[0], [1], [2], [3, 4], [5], [6, 7, 8], [9]]

/-- The children of the BlockStatement node (index 2), read off `astEdges`. -/
def blockStmtChildren : List Nat :=
  (astEdges.filter (fun e => e.1 == 2)).map Prod.snd

/-- The children of the IfStatement node (index 5), read off `astEdges`. -/
def ifStmtChildren : List Nat :=
  (astEdges.filter (fun e => e.1 == 5)).map Prod.snd

/-! ## Block boxes of the CFG scenes (`cfg_static_images.py`)

A block box is built by `create_block_box(block_id, statements, color)`,
a method duplicated verbatim in `BuildBasicBlocks`, `FinalCFG` and
`BlockMerging`. We embed each duplicate as its own definition and record the
categorical visual attributes each sets: text content, font size, color and
weight of every `Text`, the arrange buffer of the statement group, the
`SurroundingRectangle` parameters, and the buffer placing the title above the
box. Colors are modelled by their constant names ("GREEN", "WHITE", ...). -/

/-- A `Text` primitive: content, font size, color constant name, bold flag. -/
structure TextSpec where
  content : String
  fontSize : Nat
  color : String
  bold : Bool
deriving DecidableEq

/-- A `SurroundingRectangle` primitive: color constant name, buff,
corner radius and stroke width. Metric values are recorded in hundredths of
a scene unit (so 30 stands for the script literal 0.3). -/
structure BoxSpec where
  color : String
  buff : Nat
  cornerRadius : Nat
  strokeWidth : Nat
deriving DecidableEq

/-- The composed visual unit returned by a `create_block_box` method: the
title text placed above the box, the statement lines inside the box (with the
arrange buffer used when there is more than zero statements), and the
surrounding rectangle. -/
structure BlockBoxV where
  title : TextSpec
  contentLines : List TextSpec
  contentArrangeBuff : Option Nat
  box : BoxSpec
  titleAboveBuff : Nat
deriving DecidableEq

/-- `BuildBasicBlocks.create_block_box` (`cfg_static_images.py`): title
`Text(block_id, font_size=24, color=color, weight=BOLD)`; statement lines
`Text(stmt, font_size=20, color=WHITE)` arranged DOWN with buff 0.15 when the
statement list is non-empty, otherwise the single line
`Text("(empty)", font_size=20, color=GRAY)`; box
`SurroundingRectangle(buff=0.3, corner_radius=0.3, stroke_width=3)`; title
placed above the box with buff 0.2. -/
def createBlockBoxBuild (blockId : String) (statements : List String)
    (color : String) : BlockBoxV :=
  let title : TextSpec := ⟨blockId, 24, color, true⟩
  let stmtGroup : List TextSpec :=
    if statements.isEmpty then
      [⟨"(empty)", 20, "GRAY", false⟩]
    else
      statements.map (fun stmt => ⟨stmt, 20, "WHITE", false⟩)
  let arrangeBuff : Option Nat :=
    if statements.isEmpty then none else some 15
  ⟨title, stmtGroup, arrangeBuff, ⟨color, 30, 30, 300⟩, 20⟩

/-- `FinalCFG.create_block_box` (`cfg_static_images.py`): textually identical
to `BuildBasicBlocks.create_block_box`; embedded separately because the claims
compare the duplicates. -/
def createBlockBoxFinal (blockId : String) (statements : List String)
    (color : String) : BlockBoxV :=
  let title : TextSpec := ⟨blockId, 24, color, true⟩
  let stmtGroup : List TextSpec :=
    if statements.isEmpty then
      [⟨"(empty)", 20, "GRAY", false⟩]
    else
      statements.map (fun stmt => ⟨stmt, 20, "WHITE", false⟩)
  let arrangeBuff : Option Nat :=
    if statements.isEmpty then none else some 15
  ⟨title, stmtGroup, arrangeBuff, ⟨color, 30, 30, 300⟩, 20⟩

/-- `BlockMerging.create_block_box` (`cfg_static_images.py`): textually
identical to the other two duplicates. -/
def createBlockBoxMerging (blockId : String) (statements : List String)
    (color : String) : BlockBoxV :=
  let title : TextSpec := ⟨blockId, 24, color, true⟩
  let stmtGroup : List TextSpec :=
    if statements.isEmpty then
      [⟨"(empty)", 20, "GRAY", false⟩]
    else
      statements.map (fun stmt => ⟨stmt, 20, "WHITE", false⟩)
  let arrangeBuff : Option Nat :=
    if statements.isEmpty then none else some 15
  ⟨title, stmtGroup, arrangeBuff, ⟨color, 30, 30, 300⟩, 20⟩

/-- Placeholder block box used as the default of list lookups that are in
fact always in bounds. -/
def noBlock : BlockBoxV := ⟨⟨"", 0, "", false⟩, [], none, ⟨"", 0, 0, 0⟩, 0⟩

/-- The six blocks of `BuildBasicBlocks.construct`, in the order they are
added to the `blocks` group. -/
def bbBlocks : List BlockBoxV :=
  [createBlockBoxBuild "entry_block" ["int grade = 0;", "int score = 70;"] "GREEN",
   createBlockBoxBuild "block_1" ["if (score >= 90)"] "ORANGE",
   createBlockBoxBuild "block_2" ["grade = 1;"] "YELLOW",
   createBlockBoxBuild "block_3" ["grade = 2;"] "YELLOW",
   createBlockBoxBuild "block_4" ["return grade;"] "PURPLE",
   createBlockBoxBuild "exit_block" [] "RED"]

/-- The six blocks of `FinalCFG.construct`, in the order they are added to
the `blocks` group. -/
def fcBlocks : List BlockBoxV :=
  [createBlockBoxFinal "entry_block" ["int grade = 0;", "int score = 70;"] "GREEN",
   createBlockBoxFinal "block_1" ["if (score >= 90)"] "ORANGE",
   createBlockBoxFinal "block_2" ["grade = 1;"] "YELLOW",
   createBlockBoxFinal "block_3" ["grade = 2;"] "YELLOW",
   createBlockBoxFinal "block_4" ["return grade;"] "PURPLE",
   createBlockBoxFinal "exit_block" [] "RED"]

/-! ## Connectors (arrows) of the CFG scenes -/

/-- An edge of a block box used as an arrow anchor. -/
inductive Side
  | top
  | bottom
  | left
  | right
deriving DecidableEq

/-- A connector built by `BlockMerging.create_arrow` or by the inline arrow
loop of `FinalCFG.construct`: the two boxes it joins, its optional text
label, the box edges its start and end anchors sit on (each anchor is that
edge's midpoint pushed outward by the scene's fixed `OFFSET_DISTANCE`), and,
when a label is present, the direction and distance (in hundredths of a
scene unit) of the shift applied to the label after centering it on the
arrow. -/
structure ArrowV where
  fromBox : BlockBoxV
  toBox : BlockBoxV
  label : Option String
  startSide : Side
  endSide : Side
  labelShift : Option (Side × Nat)
deriving DecidableEq

/-- Placeholder arrow used as the default of list lookups that are in fact
always in bounds. -/
def noArrow : ArrowV := ⟨noBlock, noBlock, none, Side.bottom, Side.top, none⟩

/-- The start-anchor edge chosen by `BlockMerging.create_arrow` from the
source block's index (`-1` stands for the merged block, as in the script):
index 0 (entry) → bottom; 1 or -1 (block_1 / merged) → bottom; 4 (condition)
→ left when heading to index 5 (then), right otherwise; 5 or 6 (then/else) →
bottom; anything else (merge) → bottom. -/
def bmArrowStartSide (fromIdx toIdx : Int) : Side :=
  if fromIdx == 0 then Side.bottom
  else if fromIdx == 1 || fromIdx == -1 then Side.bottom
  else if fromIdx == 4 then
    (if toIdx == 5 then Side.left else Side.right)
  else if fromIdx == 5 || fromIdx == 6 then Side.bottom
  else Side.bottom

/-- The end-anchor edge chosen by `BlockMerging.create_arrow` from the
destination block's index: every branch of the script returns the top edge. -/
def bmArrowEndSide (toIdx : Int) : Side :=
  if toIdx == 4 then Side.top
  else if toIdx == 5 || toIdx == 6 then Side.top
  else if toIdx == 7 then Side.top
  else if toIdx == 8 then Side.top
  else Side.top

/-- `BlockMerging.create_arrow` (`cfg_static_images.py`): builds the arrow
between the two blocks with anchor edges given by the index dispatch above;
when a label is given, the label is centered on the arrow and shifted
`LEFT * 0.25` when the destination index is 5 (the true branch) and
`RIGHT * 0.25` otherwise. -/
def bmCreateArrow (fromBox toBox : BlockBoxV) (labelText : Option String)
    (fromIdx toIdx : Int) : ArrowV :=
  let shift : Option (Side × Nat) :=
    match labelText with
    | some _ =>
      if toIdx == 5 then some (Side.left, 25)
      else some (Side.right, 25)
    | none => none
  ⟨fromBox, toBox, labelText, bmArrowStartSide fromIdx toIdx,
    bmArrowEndSide toIdx, shift⟩

/-- The nine blocks of `BlockMerging.show_initial_blocks`, in the order they
are added to the `blocks` group (entry, the three straight-line blocks, the
condition, then, else, the join block, exit). -/
def bmInitialBlocks : List BlockBoxV :=
  [createBlockBoxMerging "entry_block" ["int x = 0;", "int y = 1;"] "GREEN",
   createBlockBoxMerging "block_1" ["x = x + 1;"] "YELLOW",
   createBlockBoxMerging "block_2" ["y = y * 2;"] "YELLOW",
   createBlockBoxMerging "block_3" ["int z = x + y;"] "YELLOW",
   createBlockBoxMerging "block_4" ["if (z > 10)"] "ORANGE",
   createBlockBoxMerging "block_5" ["x = 100;"] "YELLOW",
   createBlockBoxMerging "block_6" ["x = 200;"] "YELLOW",
   createBlockBoxMerging "block_7" ["return x;"] "PURPLE",
   createBlockBoxMerging "exit_block" [] "RED"]

/-- The literal `connections` list of `BlockMerging.show_initial_blocks`:
(source block index, destination block index, optional label). -/
def bmConnections : List (Nat × Nat × Option String) :=
  [(0, 1, none),
   (1, 2, none),
   (2, 3, none),
   (3, 4, none),
   (4, 5, some "true"),
   (4, 6, some "false"),
   (5, 7, none),
   (6, 7, none),
   (7, 8, none)]

/-- The nine initial arrows of `BlockMerging.show_initial_blocks`, built from
`bmConnections` by `create_arrow` exactly as the script's loop does. -/
def bmInitialArrows : List ArrowV :=
  bmConnections.map (fun c =>
    bmCreateArrow (bmInitialBlocks.getD c.1 noBlock)
      (bmInitialBlocks.getD c.2.1 noBlock) c.2.2 (c.1 : Int) (c.2.1 : Int))

/-! ## The merge step (`BlockMerging.perform_merging`) -/

/-- The merged block built by `perform_merging`: id `merged_block`, the three
straight-line blocks' statements written out in chain order, color GREEN. -/
def bmMergedBlock : BlockBoxV :=
  createBlockBoxMerging "merged_block"
    ["x = x + 1;", "y = y * 2;", "int z = x + y;"] "GREEN"

/-- The `blocks_to_remove` list of `perform_merging`:
`self.blocks[1]`, `self.blocks[2]`, `self.blocks[3]`. -/
def bmBlocksToRemove : List BlockBoxV :=
  [bmInitialBlocks.getD 1 noBlock,
   bmInitialBlocks.getD 2 noBlock,
   bmInitialBlocks.getD 3 noBlock]

/-- The `arrows_to_remove` list of `perform_merging`:
`self.arrows[0]` … `self.arrows[3]`. -/
def bmArrowsToRemove : List ArrowV :=
  [bmInitialArrows.getD 0 noArrow,
   bmInitialArrows.getD 1 noArrow,
   bmInitialArrows.getD 2 noArrow,
   bmInitialArrows.getD 3 noArrow]

/-- `new_arrow1` of `perform_merging`: entry → merged block, built by
`create_arrow(self.blocks[0], merged_block, None, 0, -1)`. -/
def bmNewArrow1 : ArrowV :=
  bmCreateArrow (bmInitialBlocks.getD 0 noBlock) bmMergedBlock none 0 (-1)

/-- `new_arrow2` of `perform_merging`: merged block → condition, built by
`create_arrow(merged_block, self.blocks[4], None, -1, 4)`. -/
def bmNewArrow2 : ArrowV :=
  bmCreateArrow bmMergedBlock (bmInitialBlocks.getD 4 noBlock) none (-1) 4

/-- The `self.blocks` group after `perform_merging`, with the script's
explicit member list (entry, merged, condition, then, else, merge, exit). -/
def bmBlocksAfterMerge : List BlockBoxV :=
  [bmInitialBlocks.getD 0 noBlock,
   bmMergedBlock,
   bmInitialBlocks.getD 4 noBlock,
   bmInitialBlocks.getD 5 noBlock,
   bmInitialBlocks.getD 6 noBlock,
   bmInitialBlocks.getD 7 noBlock,
   bmInitialBlocks.getD 8 noBlock]

/-- The `self.arrows` group after `perform_merging`, with the script's
explicit member list (the two new arrows followed by the five surviving
original arrows `self.arrows[4]` … `self.arrows[8]`). -/
def bmArrowsAfterMerge : List ArrowV :=
  [bmNewArrow1,
   bmNewArrow2,
   bmInitialArrows.getD 4 noArrow,
   bmInitialArrows.getD 5 noArrow,
   bmInitialArrows.getD 6 noArrow,
   bmInitialArrows.getD 7 noArrow,
   bmInitialArrows.getD 8 noArrow]

/-- An arrow is incident to one of the given blocks when its source or its
destination box is among them. -/
def arrowIncident (removed : List BlockBoxV) (a : ArrowV) : Bool :=
  removed.contains a.fromBox || removed.contains a.toBox

/-! ## The `FinalCFG` connector loop -/

/-- The start-anchor edge chosen by the inline arrow loop of
`FinalCFG.construct` from the source block's index: 0 (entry) → bottom;
1 (condition) → left when heading to index 2 (then), right otherwise;
2 or 3 (then/else) → bottom; anything else (return) → bottom. -/
def fcArrowStartSide (fromIdx toIdx : Nat) : Side :=
  if fromIdx == 0 then Side.bottom
  else if fromIdx == 1 then
    (if toIdx == 2 then Side.left else Side.right)
  else if fromIdx == 2 || fromIdx == 3 then Side.bottom
  else Side.bottom

/-- The end-anchor edge chosen by the inline arrow loop of
`FinalCFG.construct`: every branch of the script returns the top edge. -/
def fcArrowEndSide (toIdx : Nat) : Side :=
  if toIdx == 1 then Side.top
  else if toIdx == 2 || toIdx == 3 then Side.top
  else if toIdx == 4 then Side.top
  else Side.top

/-- One iteration of the arrow loop of `FinalCFG.construct`: anchor edges by
the index dispatch above; when a label is given, the label is centered on the
arrow and shifted `LEFT * 0.3` when the destination index is 2 (the true
branch) and `RIGHT * 0.3` otherwise. -/
def fcMakeArrow (fromBox toBox : BlockBoxV) (labelText : Option String)
    (fromIdx toIdx : Nat) : ArrowV :=
  let shift : Option (Side × Nat) :=
    match labelText with
    | some _ =>
      if toIdx == 2 then some (Side.left, 30)
      else some (Side.right, 30)
    | none => none
  ⟨fromBox, toBox, labelText, fcArrowStartSide fromIdx toIdx,
    fcArrowEndSide toIdx, shift⟩

/-- The literal `connections` list of `FinalCFG.construct`. -/
def fcConnections : List (Nat × Nat × Option String) :=
  [(0, 1, none),
   (1, 2, some "true"),
   (1, 3, some "false"),
   (2, 4, none),
   (3, 4, none),
   (4, 5, none)]

/-- The six arrows of `FinalCFG.construct`, built from `fcConnections`
exactly as the script's loop does. -/
def fcArrows : List ArrowV :=
  fcConnections.map (fun c =>
    fcMakeArrow (fcBlocks.getD c.1 noBlock) (fcBlocks.getD c.2.1 noBlock)
      c.2.2 c.1 c.2.1)

/-- Every connector actually built by the CFG scenes: the nine initial
`BlockMerging` arrows, the two arrows added by its merge step, and the six
`FinalCFG` arrows (the other two CFG scenes draw no arrows). -/
def allBuiltArrows : List ArrowV :=
  bmInitialArrows ++ [bmNewArrow1, bmNewArrow2] ++ fcArrows

/-- The anchor/label discipline claimed for a built connector: end anchor on
the destination's top edge; start anchor on the source's bottom edge, except
that a connector labeled "true" starts on the source's left edge with its
label shifted left, and a connector labeled "false" starts on the source's
right edge with its label shifted right; unlabeled connectors carry no label
shift. -/
def arrowConformant (a : ArrowV) : Bool :=
  (a.endSide == Side.top) &&
  (if a.label == some "true" then
    a.startSide == Side.left && (a.labelShift.map Prod.fst == some Side.left)
  else if a.label == some "false" then
    a.startSide == Side.right && (a.labelShift.map Prod.fst == some Side.right)
  else
    a.startSide == Side.bottom && a.labelShift == none)

/-! ## Claim theorems -/

/-- C1: the merge step of the `BlockMerging` scene produces exactly the
claimed post-state: the block group after the merge is (as a multiset) the
original nine blocks minus the three straight-line blocks `block_1`,
`block_2`, `block_3` plus the one merged block; the merged block's statement
list is the concatenation of their statement lists in chain order
("x = x + 1;", "y = y * 2;", "int z = x + y;"); the arrows removed are
exactly the connectors incident to a merged block, namely entry→block_1,
block_1→block_2, block_2→block_3, block_3→condition; the arrow group after
the merge is (as a multiset) the original nine arrows minus those four plus
exactly the two new connectors entry→merged and merged→condition; and the
five downstream connectors survive as the identical connector objects
(`self.arrows[4]` … `self.arrows[8]` unchanged). -/
theorem perform_merging_post_state :
    List.Perm bmBlocksAfterMerge
      (bmMergedBlock ::
        bmInitialBlocks.filter (fun b => !(bmBlocksToRemove.contains b))) ∧
    bmBlocksToRemove.map (fun b => b.title.content) =
      ["block_1", "block_2", "block_3"] ∧
    bmMergedBlock.contentLines =
      (bmInitialBlocks.getD 1 noBlock).contentLines ++
        (bmInitialBlocks.getD 2 noBlock).contentLines ++
        (bmInitialBlocks.getD 3 noBlock).contentLines ∧
    bmMergedBlock.contentLines.map (fun t => t.content) =
      ["x = x + 1;", "y = y * 2;", "int z = x + y;"] ∧
    bmInitialArrows.filter (arrowIncident bmBlocksToRemove) =
      bmArrowsToRemove ∧
    bmArrowsToRemove.map (fun a => (a.fromBox.title.content, a.toBox.title.content)) =
      [("entry_block", "block_1"), ("block_1", "block_2"),
       ("block_2", "block_3"), ("block_3", "block_4")] ∧
    List.Perm bmArrowsAfterMerge
      (bmNewArrow1 :: bmNewArrow2 ::
        bmInitialArrows.filter (fun a => !(arrowIncident bmBlocksToRemove a))) ∧
    (bmNewArrow1.fromBox.title.content, bmNewArrow1.toBox.title.content) =
      ("entry_block", "merged_block") ∧
    (bmNewArrow2.fromBox.title.content, bmNewArrow2.toBox.title.content) =
      ("merged_block", "block_4") ∧
    bmArrowsAfterMerge.drop 2 = bmInitialArrows.drop 4 := by
  decide

/-- C2: the `BlockMerging` scene's initial stage constructs exactly 9 blocks
and exactly 9 connectors, and after the merge step the scene's block group
holds exactly 7 blocks and its connector group exactly 7 connectors. -/
theorem block_merging_scene_counts :
    bmInitialBlocks.length = 9 ∧
    bmInitialArrows.length = 9 ∧
    bmBlocksAfterMerge.length = 7 ∧
    bmArrowsAfterMerge.length = 7 := by
  decide

/-- C3: the tokenization stage of the AST scene displays exactly 33 tokens;
the first token is the keyword "int", the category sequence opens with
keyword, identifier, delimiter, and the last token is the delimiter
(closing brace). -/
theorem tokenization_stage_token_list :
    astTokens.length = 33 ∧
    astTokens.getD 0 ("", "") = ("int", keywordCategory) ∧
    (astTokens.map Prod.snd).take 3 =
      [keywordCategory, identifierCategory, delimiterCategory] ∧
    astTokens.getD 32 ("", "") = ("\x7d", delimiterCategory) := by
  decide

/-- C4 counterexample: the displayed token list is NOT the complete
tokenization of the literal source program in reading order — the program has
38 lexemes, the stage displays only 33. -/
theorem displayed_tokens_not_complete_tokenization :
    astDisplayedLexemes ≠ tokenizeProgram astSourceLines ∧
    (tokenizeProgram astSourceLines).length = 38 ∧
    astDisplayedLexemes.length = 33 := by
  decide

/-- C4 amended: the displayed token list is the complete tokenization, in
reading order (left-to-right, top-to-bottom), of the source program with its
third line "int score = 70;" omitted: every lexeme of the remaining nine
lines appears at its reading-order position and the list contains nothing
else. -/
theorem displayed_tokens_reading_order_minus_score_line :
    astSourceLines.length = 10 ∧
    astSourceLines.getD 2 "" = "    int score = 70;" ∧
    astDisplayedLexemes =
      tokenizeProgram (astSourceLines.take 2 ++ astSourceLines.drop 3) := by
  decide

/-- C5: the AST tree stage declares 10 nodes and 9 connectors (one fewer than
nodes), every node other than the root `Program` (index 0) is the destination
of exactly one connector, and the root is the destination of none. -/
theorem ast_tree_shape :
    astNodeLabels.length = 10 ∧
    astEdges.length = astNodeLabels.length - 1 ∧
    astNodeLabels.getD 0 "" = "Program" ∧
    astEdges.countP (fun e => e.2 == 0) = 0 ∧
    (List.range 10).filter (fun i => astEdges.countP (fun e => e.2 == i) == 1) =
      [1, 2, 3, 4, 5, 6, 7, 8, 9] := by
  decide

/-- C6 counterexample: the block statement's four children (nodes 3, 4, 5, 9)
are NOT revealed in one batched animation call — no `self.play` batch of the
reveal schedule contains all four of them. -/
theorem block_stmt_children_not_one_batch :
    blockStmtChildren = [3, 4, 5, 9] ∧
    astRevealSchedule.filter (fun b => blockStmtChildren.all b.contains) = [] := by
  decide

/-- C6 amended: the tree stage reveals its ten nodes in seven batched
animation calls in a fixed depth-grouped order: the root, then the function
declaration, then the block statement, then two of the block statement's
children (the two variable declarations) in parallel, then the if statement
(also a child of the block statement), then the if statement's three children
(condition, then-branch, else-branch) in parallel, and finally the return
node (the block statement's remaining child); every node is revealed exactly
once. -/
theorem ast_reveal_order_by_depth :
    astRevealSchedule.length = 7 ∧
    List.Perm astRevealSchedule.flatten (List.range 10) ∧
    astRevealSchedule.getD 0 [] = [0] ∧
    astRevealSchedule.getD 1 [] = [1] ∧
    astRevealSchedule.getD 2 [] = [2] ∧
    astRevealSchedule.getD 3 [] = [3, 4] ∧
    (astRevealSchedule.getD 3 []).all blockStmtChildren.contains = true ∧
    astRevealSchedule.getD 4 [] = [5] ∧
    blockStmtChildren.contains 5 = true ∧
    astRevealSchedule.getD 5 [] = ifStmtChildren ∧
    astRevealSchedule.getD 6 [] = [9] ∧
    blockStmtChildren.contains 9 = true := by
  decide

/-- C7: in the `BlockMerging` scene's initial connection list every
referenced block index is below the block count 9; there is exactly one edge
labeled "true" and exactly one labeled "false", both with the condition block
(index 4, `block_4`, holding "if (z > 10)") as source, and all seven other
edges carry no label. -/
theorem initial_connection_list_well_formed :
    bmInitialBlocks.length = 9 ∧
    bmConnections.all (fun c => decide (c.1 < 9) && decide (c.2.1 < 9)) = true ∧
    bmConnections.filter (fun c => c.2.2 == some "true") = [(4, 5, some "true")] ∧
    bmConnections.filter (fun c => c.2.2 == some "false") = [(4, 6, some "false")] ∧
    (bmConnections.filter (fun c => c.2.2 == none)).length = 7 ∧
    (bmInitialBlocks.getD 4 noBlock).title.content = "block_4" ∧
    (bmInitialBlocks.getD 4 noBlock).contentLines.map (fun t => t.content) =
      ["if (z > 10)"] := by
  decide

/-- C8: every connector built in the CFG scenes anchors its end on the
destination box's top edge and its start on the source box's bottom edge,
except the condition block's two branch edges, which start on the condition
box's left edge (label "true", label shifted left) and right edge (label
"false", label shifted right); moreover the labeled connectors are exactly
the two branch edges out of the condition block in each scene (`block_4` in
`BlockMerging`, `block_1` in `FinalCFG`). -/
theorem connector_anchor_discipline :
    allBuiltArrows.all arrowConformant = true ∧
    (bmInitialArrows.filter (fun a => a.label != none)).map
        (fun a => (a.fromBox.title.content, a.label)) =
      [("block_4", some "true"), ("block_4", some "false")] ∧
    (fcArrows.filter (fun a => a.label != none)).map
        (fun a => (a.fromBox.title.content, a.label)) =
      [("block_1", some "true"), ("block_1", some "false")] ∧
    [bmNewArrow1.label, bmNewArrow2.label] = [none, none] := by
  decide

/-- C9: each block-box builder, given an empty statement list, renders a box
whose content is exactly one placeholder line "(empty)" (font size 20, GRAY);
in particular the exit blocks of `BuildBasicBlocks`, `FinalCFG` and
`BlockMerging`, all constructed with empty statement lists, contain this
single placeholder line. -/
theorem empty_statement_list_placeholder (blockId color : String) :
    (createBlockBoxBuild blockId [] color).contentLines =
      [⟨"(empty)", 20, "GRAY", false⟩] ∧
    (createBlockBoxFinal blockId [] color).contentLines =
      [⟨"(empty)", 20, "GRAY", false⟩] ∧
    (createBlockBoxMerging blockId [] color).contentLines =
      [⟨"(empty)", 20, "GRAY", false⟩] ∧
    (bbBlocks.getD 5 noBlock).title.content = "exit_block" ∧
    (bbBlocks.getD 5 noBlock).contentLines.map (fun t => t.content) = ["(empty)"] ∧
    (fcBlocks.getD 5 noBlock).contentLines.map (fun t => t.content) = ["(empty)"] ∧
    (bmInitialBlocks.getD 8 noBlock).title.content = "exit_block" ∧
    (bmInitialBlocks.getD 8 noBlock).contentLines.map (fun t => t.content) =
      ["(empty)"] := by
  exact ⟨rfl, rfl, rfl, by decide, by decide, by decide, by decide, by decide⟩

/-- C10: the three duplicated block-box builders are extensionally equal: for
every block identifier, statement list and color they produce the same
composed visual structure (same title text and placement, same statement
layout, same surrounding-rectangle parameters). -/
theorem create_block_box_duplicates_agree (blockId : String)
    (statements : List String) (color : String) :
    createBlockBoxBuild blockId statements color =
      createBlockBoxFinal blockId statements color ∧
    createBlockBoxFinal blockId statements color =
      createBlockBoxMerging blockId statements color := by
  exact ⟨rfl, rfl⟩
